import Mathlib

/-!
Verification development for the dmarc-demo-data repository.

This file gives a shallow embedding of the report-assembly functions of
`demo_reports.py` (`get_report_metadata`, `get_policy_published`, `get_row`,
`get_identifiers`, `get_auth_results`, `get_record`, `get_report_data`) and
of the XML validation wrappers of `rua.py` (`validate`, `validate_report`),
and proves properties of the embedded definitions.
-/

namespace DmarcDemo

/-- Calendar date (year, month, day) as carried by the Python `datetime`
value that `main` passes to `get_report_metadata` as `day`. -/
structure Date where
  year : Int
  month : Int
  day : Int
deriving DecidableEq

/-- Days since 1970-01-01 of a proleptic-Gregorian civil date (the standard
days-from-civil algorithm). All intermediate quotients have non-negative
dividends for the dates that occur here, so Euclidean division agrees with
the C truncating division of the original algorithm. -/
def daysFromCivil (yIn m d : Int) : Int :=
  let y := if m ≤ 2 then yIn - 1 else yIn
  let era := (if 0 ≤ y then y else y - 399) / 400
  let yoe := y - era * 400
  let mp := (m + 9) % 12
  let doy := (153 * mp + 2) / 5 + d - 1
  let doe := yoe * 365 + yoe / 4 - yoe / 100 + doy
  era * 146097 + doe - 719468

/-- Epoch seconds of 00:00:00 UTC on a calendar day. -/
def epochOfDayUTC (day : Date) : Int :=
  86400 * daysFromCivil day.year day.month day.day

/-- Embedding of `int(day.date().strftime("%s"))` from `get_report_metadata`.
On glibc the non-standard format `"%s"` renders the broken-down fields
through `mktime`, i.e. interprets midnight of `day` as LOCAL time, so the
result is the epoch timestamp of local midnight: UTC midnight of `day`
minus the environment's UTC offset (`tzOffset`, seconds east of UTC).
The ambient local-timezone offset is made an explicit parameter. -/
def strftime_s (tzOffset : Int) (day : Date) : Int :=
  epochOfDayUTC day - tzOffset

/-- The `date_range` sub-dictionary of `report_metadata`. -/
structure DateRange where
  begin : Int
  end_ : Int
deriving DecidableEq

/-- The `report_metadata` dictionary returned by `get_report_metadata`. -/
structure ReportMetadata where
  org_name : String
  org_email : String
  extra_contact_info : String
  report_id : String
  date_range : DateRange
deriving DecidableEq

/-- The `policy_published` dictionary returned by `get_policy_published`. -/
structure PolicyPublished where
  domain : String
  adkim : String
  aspf : String
  p : String
  sp : String
  pct : Int
deriving DecidableEq

/-- The `policy_evaluated` sub-dictionary of a row. -/
structure PolicyEvaluated where
  disposition : String
  dkim : String
  spf : String
deriving DecidableEq

/-- The `row` dictionary returned by `get_row`. -/
structure Row where
  source_ip : String
  count : Int
  policy_evaluated : PolicyEvaluated
deriving DecidableEq

/-- The `identifiers` dictionary returned by `get_identifiers`. -/
structure Identifiers where
  envelope_to : String
  header_from : String
deriving DecidableEq

/-- One entry of an `auth_results` `dkim` or `spf` list. -/
structure AuthResultEntry where
  domain : String
  result : String
deriving DecidableEq

/-- The `auth_results` dictionary returned by `get_auth_results`. -/
structure AuthResults where
  dkim : List AuthResultEntry
  spf : List AuthResultEntry
deriving DecidableEq

/-- The `record` dictionary returned by `get_record`. -/
structure Record where
  row : Row
  identifiers : Identifiers
  auth_results : AuthResults
deriving DecidableEq

/-- The complete report dictionary returned by `get_report_data`. -/
structure ReportData where
  report_metadata : ReportMetadata
  policy_published : PolicyPublished
  records : List Record
deriving DecidableEq

/-- Embedding of `get_report_metadata(reporter, reportee, day)`:
`begin = int(day.date().strftime("%s"))`, `end = begin + 86400 - 1`,
`report_id = "{reportee}:{ts}"` with `ts = end`, and the formatted
contact strings. -/
def get_report_metadata (tzOffset : Int) (reporter reportee : String)
    (day : Date) : ReportMetadata :=
  let begin := strftime_s tzOffset day
  let end_ := begin + 86400 - 1
  { org_name := reporter
    org_email := "postmaster@" ++ reporter
    extra_contact_info := "www." ++ reporter
    report_id := reportee ++ ":" ++ toString end_
    date_range := { begin := begin, end_ := end_ } }

/-- Embedding of `get_policy_published(reportee, policy)`: hardcoded
`adkim = aspf = "r"`, `pct = 100`, and `p = sp = policy`. -/
def get_policy_published (reportee policy : String) : PolicyPublished :=
  { domain := reportee
    adkim := "r"
    aspf := "r"
    p := policy
    sp := policy
    pct := 100 }

/-- Embedding of `get_row(reportee, policy, dkim_result, spf_result,
message_count, source_ip)`. `dkim_result` is `Option String` because the
Python caller may pass `None`; `None == "pass"` is `False` in Python, which
the `dkim_result = some "pass"` test mirrors. -/
def get_row (_reportee policy : String) (dkim_result : Option String)
    (spf_result : String) (message_count : Int) (source_ip : String) : Row :=
  let aligned_dkim_result := if dkim_result = some "pass" then "pass" else "fail"
  let aligned_spf_result := if spf_result = "pass" then "pass" else "fail"
  let disposition :=
    if aligned_dkim_result = "pass" ∨ aligned_spf_result = "pass" then "none"
    else policy
  { source_ip := source_ip
    count := message_count
    policy_evaluated :=
      { disposition := disposition
        dkim := aligned_dkim_result
        spf := aligned_spf_result } }

/-- Embedding of `get_identifiers(reporter, reportee)`. -/
def get_identifiers (reporter reportee : String) : Identifiers :=
  { envelope_to := reporter, header_from := reportee }

/-- Embedding of `get_auth_results(reportee, dkim_result, spf_result)`.
The Python code guards the single dkim entry with `if dkim_result:`, i.e.
Python truthiness of an `Optional[str]`: `None` and the empty string are
falsy, every other string is truthy. The `spf` list always holds exactly
one entry. -/
def get_auth_results (reportee : String) (dkim_result : Option String)
    (spf_result : String) : AuthResults :=
  let dkim : List AuthResultEntry :=
    match dkim_result with
    | none => []
    | some s => if s ≠ "" then [{ domain := reportee, result := s }] else []
  let spf : List AuthResultEntry := [{ domain := reportee, result := spf_result }]
  { dkim := dkim, spf := spf }

/-- The keyword arguments threaded through `get_record` / `get_report_data`
(the `**kw` dictionary built up in `main`). -/
structure ReportVars where
  reporter : String
  reportee : String
  policy : String
  day : Date
  dkim_result : Option String
  spf_result : String
  message_count : Int
  source_ip : String
deriving DecidableEq

/-- Embedding of `get_record(**kw)`. -/
def get_record (kw : ReportVars) : Record :=
  { row := get_row kw.reportee kw.policy kw.dkim_result kw.spf_result
      kw.message_count kw.source_ip
    identifiers := get_identifiers kw.reporter kw.reportee
    auth_results := get_auth_results kw.reportee kw.dkim_result kw.spf_result }

/-- Embedding of `get_report_data(**kw)`: metadata, published policy and a
singleton `records` list. `tzOffset` is the ambient local-timezone offset
consumed by `get_report_metadata` (see `strftime_s`). -/
def get_report_data (tzOffset : Int) (kw : ReportVars) : ReportData :=
  { report_metadata := get_report_metadata tzOffset kw.reporter kw.reportee kw.day
    policy_published := get_policy_published kw.reportee kw.policy
    records := [get_record kw] }

/-- The raw DKIM result choices of `main` (`None` means no raw DKIM result);
the seven present values are the allowed DKIM result enums. -/
def dkim_result_choices : List (Option String) :=
  [none, some "none", some "pass", some "fail", some "policy", some "neutral",
    some "temperror", some "permerror"]

/-- The seven raw SPF result choices of `main` (the allowed SPF enums). -/
def spf_result_choices : List String :=
  ["none", "neutral", "pass", "fail", "softfail", "temperror", "permerror"]

/-- Error taxonomy of `rua.validate` as documented in its docstring:
`ParseError` when the XML bytes cannot be parsed, `XMLSchemaParseError` when
the XSD bytes cannot be parsed into a schema object, and `DocumentInvalid`
(lxml's exception for a schema violation) when the parsed document fails
validation against the schema. -/
inductive XmlError where
  | ParseError
  | XMLSchemaParseError
  | DocumentInvalid
deriving DecidableEq

/-- Interface of the `lxml.etree` operations that `rua.validate` calls,
abstracted over the document and schema representations: `fromstring`
returns `none` when its input is not well-formed XML (lxml raises a parse
error there), `xmlschema` returns `none` when the parsed XSD does not yield
a valid schema object, and `assertValid` decides conformance of a parsed
document against a schema. -/
structure XmlLib (Doc Schema : Type) where
  fromstring : List Nat → Option Doc
  xmlschema : Doc → Option Schema
  assertValid : Schema → Doc → Bool

/-- Embedding of `rua.validate(xml_data, xsd_data)`, following the source's
statement order exactly: parse `xml_data`, then parse `xsd_data`, then
build the schema object, then assert validity of the document. -/
def validate {Doc Schema : Type} (lib : XmlLib Doc Schema)
    (xml_data xsd_data : List Nat) : Except XmlError Unit :=
  match lib.fromstring xml_data with
  | none => .error .ParseError
  | some xml =>
    match lib.fromstring xsd_data with
    | none => .error .ParseError
    | some schema_xml =>
      match lib.xmlschema schema_xml with
      | none => .error .XMLSchemaParseError
      | some schema =>
        if lib.assertValid schema xml then .ok () else .error .DocumentInvalid

/-- Embedding of `rua.validate_report(dmarc_report)`: `validate` applied to
the fixed report schema bytes `REPORT_SCHEMA` loaded at module setup. -/
def validate_report {Doc Schema : Type} (lib : XmlLib Doc Schema)
    (REPORT_SCHEMA : List Nat) (dmarc_report : List Nat) : Except XmlError Unit :=
  validate lib dmarc_report REPORT_SCHEMA

/-- Concrete instantiation of the XML library interface, used to witness the
validator theorems: the empty byte list is the one ill-formed input, every
parsed XSD yields a schema object, and no document conforms. -/
def wLib : XmlLib Unit Unit :=
  { fromstring := fun b => if b = [] then none else some ()
    xmlschema := fun _ => some ()
    assertValid := fun _ _ => false }

/-- Concrete report variables with a negative message count, as used by the
demo generator otherwise (`main`'s incoming-report parameter set). -/
def kwNeg : ReportVars :=
  { reporter := "foreign-demo-domain.us"
    reportee := "my-demo-domain.at"
    policy := "none"
    day := ⟨2017, 1, 1⟩
    dkim_result := some "pass"
    spf_result := "pass"
    message_count := -1
    source_ip := "8.8.8.8" }

/-- Claim C1, counterexample: with published policy "none" and both raw
results failing, `get_row` computes disposition "none" although neither
aligned result is "pass", so disposition = "none" is not equivalent to
(alignedDkim = "pass" or alignedSpf = "pass") for the policy value
"none". -/
theorem C1_counterexample :
    ¬ (((get_row "my-demo-domain.at" "none" (some "fail") "fail" 1
        "8.8.8.8").policy_evaluated.disposition = "none") ↔
      ((get_row "my-demo-domain.at" "none" (some "fail") "fail" 1
        "8.8.8.8").policy_evaluated.dkim = "pass" ∨
       (get_row "my-demo-domain.at" "none" (some "fail") "fail" 1
        "8.8.8.8").policy_evaluated.spf = "pass")) := by
  decide

/-- Claim C1 (amended): for every (dkim_result, spf_result, policy) with
policy in the three published-policy values, `get_row` sets disposition to
"none" whenever alignedDkim or alignedSpf is "pass" and to the published
policy otherwise; the claim's "only if" direction (the full equivalence)
holds whenever the published policy is not itself "none". -/
theorem C1_disposition (reportee policy : String) (dkim_result : Option String)
    (spf_result : String) (mc : Int) (ip : String) (pe : PolicyEvaluated)
    (hpe : pe = (get_row reportee policy dkim_result spf_result mc
      ip).policy_evaluated)
    (hp : policy = "none" ∨ policy = "quarantine" ∨ policy = "reject") :
    ((pe.dkim = "pass" ∨ pe.spf = "pass") → pe.disposition = "none") ∧
    (¬ (pe.dkim = "pass" ∨ pe.spf = "pass") → pe.disposition = policy) ∧
    (policy ≠ "none" →
      (pe.disposition = "none" ↔ (pe.dkim = "pass" ∨ pe.spf = "pass"))) := by
  subst hpe
  by_cases hd : dkim_result = some "pass" <;>
    by_cases hs : spf_result = "pass" <;>
      simp [get_row, hd, hs]

/-- Claim C1 (amended), witness at a concrete input: policy "reject" with
both raw results failing yields disposition "reject". -/
theorem C1_witness :
    (get_row "foreign-demo-domain.us" "reject" (some "fail") "softfail" 5
      "8.8.8.8").policy_evaluated.disposition = "reject" := by
  have h := C1_disposition "foreign-demo-domain.us" "reject" (some "fail")
    "softfail" 5 "8.8.8.8" _ rfl (Or.inr (Or.inr rfl))
  exact h.2.1 (by decide)

/-- Claim C2: for every raw DKIM result r drawn from the generator's choice
list, the aligned DKIM result of `get_row` is "pass" iff r is "pass"; if r
is absent the aligned result is "fail" and `get_auth_results` returns an
empty dkim list; if r is present the dkim list is exactly one entry with
the reportee domain and r. -/
theorem C2_aligned_dkim (reportee policy spf_result : String) (mc : Int)
    (ip : String) (r : Option String) (hr : r ∈ dkim_result_choices) :
    ((get_row reportee policy r spf_result mc ip).policy_evaluated.dkim =
        "pass" ↔ r = some "pass") ∧
    (r = none →
      (get_row reportee policy r spf_result mc ip).policy_evaluated.dkim =
        "fail" ∧
      (get_auth_results reportee r spf_result).dkim = []) ∧
    (∀ v, r = some v →
      (get_auth_results reportee r spf_result).dkim =
        [{ domain := reportee, result := v }]) := by
  fin_cases hr <;> simp [get_row, get_auth_results]

/-- Claim C2, witness at r = some "pass": the dkim auth-result list is the
singleton entry for the reportee domain. -/
theorem C2_witness :
    (get_auth_results "my-demo-domain.at" (some "pass") "none").dkim =
      [{ domain := "my-demo-domain.at", result := "pass" }] := by
  have h := C2_aligned_dkim "my-demo-domain.at" "none" "none" 3 "8.8.8.8"
    (some "pass") (by decide)
  exact h.2.2 "pass" rfl

/-- Claim C3: for every raw SPF result s, the aligned SPF result of
`get_row` is "pass" iff s = "pass", and the spf list of `get_auth_results`
is always exactly one entry with the reportee domain and s. -/
theorem C3_aligned_spf (reportee policy : String) (dkim_result : Option String)
    (s : String) (mc : Int) (ip : String) :
    ((get_row reportee policy dkim_result s mc ip).policy_evaluated.spf =
        "pass" ↔ s = "pass") ∧
    (get_auth_results reportee dkim_result s).spf =
      [{ domain := reportee, result := s }] := by
  by_cases hs : s = "pass" <;> simp [get_row, get_auth_results, hs]

/-- Claim C3, witness at s = "softfail": aligned SPF is not "pass" and the
spf list is the singleton softfail entry. -/
theorem C3_witness :
    (get_auth_results "my-demo-domain.at" none "softfail").spf =
      [{ domain := "my-demo-domain.at", result := "softfail" }] :=
  (C3_aligned_spf "my-demo-domain.at" "none" none "softfail" 3 "8.8.8.8").2

/-- Claim C4, counterexample: `get_report_data` has no validation path at
all; called with message_count = -1 it still returns a full report whose
single record carries count = -1, instead of failing with InvalidInput. -/
theorem C4_counterexample :
    (get_report_data 0 kwNeg).records.map (fun r => r.row.count) = [-1] := by
  rfl

/-- Claim C4 (amended): the assembler performs no input validation and has
no failure mode: for every input, including negative message counts and
arbitrary result strings, `get_report_data` returns a report whose single
record passes message_count and the raw results through unchanged. -/
theorem C4_no_validation (tz : Int) (kw : ReportVars) :
    (get_report_data tz kw).records = [get_record kw] ∧
    (get_record kw).row.count = kw.message_count ∧
    (get_record kw).auth_results.spf =
      [{ domain := kw.reportee, result := kw.spf_result }] :=
  ⟨rfl, rfl, rfl⟩

/-- Claim C5: for every reporter, reportee, day and ambient timezone
offset, the date range produced by `get_report_metadata` spans exactly
86399 seconds (end = begin + 86400 - 1). -/
theorem C5_date_range_span (tz : Int) (reporter reportee : String)
    (day : Date) :
    (get_report_metadata tz reporter reportee day).date_range.end_ -
      (get_report_metadata tz reporter reportee day).date_range.begin =
      86399 := by
  simp only [get_report_metadata]
  omega

/-- Claim C6 (code bug): `get_report_metadata` derives dateRangeBegin via
`strftime("%s")`, which interprets midnight of the day as LOCAL time. Run
in a UTC+01:00 environment (tzOffset = 3600) on 2017-01-01 the code
produces 1483225200, while the start of 2017-01-01 in UTC is epoch second
1483228800, which is what the claim and the code's own inline comment
("The time range in UTC") require. -/
theorem C6_local_time_bug :
    (get_report_metadata 3600 "foreign-demo-domain.us" "my-demo-domain.at"
      ⟨2017, 1, 1⟩).date_range.begin = 1483225200 ∧
    epochOfDayUTC ⟨2017, 1, 1⟩ = 1483228800 ∧
    (1483225200 : Int) ≠ 1483228800 := by
  refine ⟨rfl, rfl, by decide⟩

/-- Claim C7: for every XML library behaviour, schema and input bytes, if
the input bytes do not parse then `validate_report` fails with ParseError —
with no assumption on the schema side, so the parse failure precedes any
schema check — and if the bytes parse but the document does not conform to
the parsed schema, it fails with DocumentInvalid (the schema-violation
error). -/
theorem C7_validator_order {Doc Schema : Type} (lib : XmlLib Doc Schema)
    (xsd data : List Nat) :
    (lib.fromstring data = none →
      validate_report lib xsd data = .error .ParseError) ∧
    (∀ xml sdoc schema, lib.fromstring data = some xml →
      lib.fromstring xsd = some sdoc →
      lib.xmlschema sdoc = some schema →
      lib.assertValid schema xml = false →
      validate_report lib xsd data = .error .DocumentInvalid) := by
  constructor
  · intro h
    simp [validate_report, validate, h]
  · intro xml sdoc schema h1 h2 h3 h4
    simp [validate_report, validate, h1, h2, h3, h4]

/-- Claim C7, witness: with the concrete library `wLib`, the ill-formed
input `[]` yields ParseError (not DocumentInvalid) and a well-formed but
non-conforming input yields DocumentInvalid. -/
theorem C7_witness :
    validate_report wLib [1] [] = .error .ParseError ∧
    validate_report wLib [1] [1] = .error .DocumentInvalid := by
  have h1 := C7_validator_order wLib [1] []
  have h2 := C7_validator_order wLib [1] [1]
  exact ⟨h1.1 rfl, h2.2 () () () rfl rfl rfl rfl⟩

/-- Claim C8: for every input, the records field of the report assembled by
`get_report_data` is the singleton list holding the one generated record,
hence has length 1 and is non-empty. -/
theorem C8_single_record (tz : Int) (kw : ReportVars) :
    (get_report_data tz kw).records = [get_record kw] ∧
    (get_report_data tz kw).records.length = 1 ∧
    (get_report_data tz kw).records ≠ [] :=
  ⟨rfl, rfl, List.cons_ne_nil _ _⟩

/-- Claim C9: for every reportee and policy, `get_policy_published` sets
sp equal to p, both to the passed policy, and hardcodes adkim = "r",
aspf = "r" and pct = 100. -/
theorem C9_policy_published (reportee policy : String) :
    (get_policy_published reportee policy).sp =
      (get_policy_published reportee policy).p ∧
    (get_policy_published reportee policy).p = policy ∧
    (get_policy_published reportee policy).adkim = "r" ∧
    (get_policy_published reportee policy).aspf = "r" ∧
    (get_policy_published reportee policy).pct = 100 :=
  ⟨rfl, rfl, rfl, rfl, rfl⟩

/-- Claim C10: a present-but-falsy raw DKIM result "" fails the truthiness
guard in `get_auth_results`, giving an empty dkim list, while `get_row`
still computes aligned DKIM "fail" — the outputs coincide exactly with
those for an absent raw DKIM result. -/
theorem C10_falsy_dkim (reportee policy spf_result : String) (mc : Int)
    (ip : String) :
    (get_auth_results reportee (some "") spf_result).dkim = [] ∧
    (get_row reportee policy (some "") spf_result mc
      ip).policy_evaluated.dkim = "fail" ∧
    get_auth_results reportee (some "") spf_result =
      get_auth_results reportee none spf_result ∧
    get_row reportee policy (some "") spf_result mc ip =
      get_row reportee policy none spf_result mc ip :=
  ⟨rfl, rfl, rfl, rfl⟩

end DmarcDemo
